import Mathlib

/-!
Verification development for the AI voice call assistant server (src/server.js).

The call-session lifecycle and conversational context manager of the server is
shallowly embedded here as pure Lean functions:

* the global `activeCalls` JavaScript `Map` (line 118) becomes an explicit
  association-list `Store` threaded through every operation;
* in-place mutation of a `callSession` object held by the map (the
  `conversationHistory.push` calls at lines 196 and 234, and the field writes
  in `endCall` at lines 330-331) becomes a functional update of the map entry;
* `new Date()` timestamps become an ambient `now : Nat` parameter;
* the OpenAI chat-completion call (line 222) becomes an oracle
  `provider : Nat → List Msg → Option String` giving, for each attempt index,
  either the generated utterance (`some`) or a thrown provider error (`none`);
* the MongoDB logging helpers `logConversation` / `logCallEvent`
  (lines 294-324) swallow every failure internally and never touch the session
  state, so they are modelled as no-ops;
* the recursive retry of `generateResponse` (line 252) is driven by an explicit
  `remaining` count kept equal to `3 - retryCount`, so that the source guard
  `retryCount < 3` (line 249) corresponds to `remaining` not being zero.
-/

/-- Conversation turn as pushed onto `conversationHistory`
(src/server.js lines 196-200 and 234-238): a role tag
(the string `user` or `assistant`), the text, and a timestamp. -/
structure Turn where
  role : String
  content : String
  timestamp : Nat
deriving DecidableEq

/-- Message sent to the chat-completion provider (src/server.js lines 203-220):
only a role and a content string, no timestamp. -/
structure Msg where
  role : String
  content : String
deriving DecidableEq

/-- Entry of the `supportedLanguages` table (src/server.js lines 124-131). -/
structure LangProfile where
  name : String
  voice : String
  whisperLang : String
deriving DecidableEq

/-- Call session object created by `initializeCall`
(src/server.js lines 136-145); `endTime` is absent (`none`) until `endCall`
sets it (line 331). -/
structure CallSession where
  callSid : String
  fromNumber : String
  language : String
  startTime : Nat
  conversationHistory : List Turn
  audioBuffer : List Nat
  isActive : Bool
  contextWindow : List Turn
  endTime : Option Nat
deriving DecidableEq

/-- The `activeCalls` map (src/server.js line 118), as an association list
keyed by call SID with at most one entry per key. -/
abbrev Store := List (String × CallSession)

/-- Lookup in the `activeCalls` map (`activeCalls.get(callSid)`). -/
def Store.get : Store → String → Option CallSession
  | [], _ => none
  | (k, v) :: rest, key => if k = key then some v else Store.get rest key

/-- Insertion or replacement in the `activeCalls` map
(`activeCalls.set(callSid, s)`, and functional rendering of in-place
mutation of the session object held by the map). -/
def Store.set : Store → String → CallSession → Store
  | [], key, v => [(key, v)]
  | (k, w) :: rest, key, v =>
    if k = key then (key, v) :: rest else (k, w) :: Store.set rest key v

/-- Deletion from the `activeCalls` map (`activeCalls.delete(callSid)`,
src/server.js line 339). -/
def Store.delete : Store → String → Store
  | [], _ => []
  | (k, w) :: rest, key =>
    if k = key then Store.delete rest key else (k, w) :: Store.delete rest key

/-- The `supportedLanguages` table of `AIVoiceCallAssistant`
(src/server.js lines 124-131); `none` models the `undefined` a JavaScript
object lookup yields for a key outside the table. -/
def supportedLanguages : String → Option LangProfile := fun code =>
  if code = "en" then some { name := "English", voice := "alloy", whisperLang := "en" }
  else if code = "es" then some { name := "Spanish", voice := "nova", whisperLang := "es" }
  else if code = "fr" then some { name := "French", voice := "shimmer", whisperLang := "fr" }
  else if code = "de" then some { name := "German", voice := "echo", whisperLang := "de" }
  else if code = "it" then some { name := "Italian", voice := "fable", whisperLang := "it" }
  else if code = "pt" then some { name := "Portuguese", voice := "onyx", whisperLang := "pt" }
  else none

/-- The static apology string returned after retries are exhausted
(src/server.js line 255). -/
def fallbackMessage : String :=
  "I\x27m sorry, I\x27m having trouble processing your request right now. Could you please try again?"

/-- The system instruction fixed by the session language
(src/server.js lines 206-209). -/
def systemContent (languageName : String) : String :=
  "You are an AI voice assistant speaking in " ++ languageName ++
    ". Keep responses conversational, natural, and under 100 words. " ++
    "You\x27re having a phone conversation, so speak as if talking directly to the person. " ++
    "Be helpful, friendly, and engaging."

/-- JavaScript `l.slice(-n)`: the at most `n` most recent elements, in order
(src/server.js line 214 with `n = 10`). -/
def sliceLast (n : Nat) (l : List Turn) : List Turn :=
  l.drop (l.length - n)

/-- The context-aware message list built at src/server.js lines 203-220:
one system instruction followed by the last 10 turns of the (already updated)
conversation history, each reduced to role and content. -/
def buildMessages (sess : CallSession) (languageName : String) : List Msg :=
  { role := "system", content := systemContent languageName } ::
    (sliceLast 10 sess.conversationHistory).map fun m => { role := m.role, content := m.content }

/-- `callSession.conversationHistory.push({role, content, timestamp})`
(src/server.js lines 196-200 and 234-238), as a functional session update. -/
def pushTurn (sess : CallSession) (role content : String) (now : Nat) : CallSession :=
  { sess with conversationHistory :=
      sess.conversationHistory ++ [{ role := role, content := content, timestamp := now }] }

/-- `initializeCall(callSid, fromNumber, language)` (src/server.js
lines 135-157): unconditionally builds a fresh session with empty history and
stores it under `callSid`, overwriting any previous entry; the
`call_initiated` log write is a no-op here. Returns the new store and the
session the method returns. -/
def initializeCall (store : Store) (callSid fromNumber language : String) (now : Nat) :
    Store × CallSession :=
  let callSession : CallSession :=
    { callSid := callSid
      fromNumber := fromNumber
      language := language
      startTime := now
      conversationHistory := []
      audioBuffer := []
      isActive := true
      contextWindow := []
      endTime := none }
  (Store.set store callSid callSession, callSession)

/-- One execution of the `try` block of `generateResponse`
(src/server.js lines 191-243). `none` in the second component is a thrown
error caught by the `catch` at line 245, arising from any of:
the missing session (line 193), the `.name` access on an `undefined`
language-table entry (line 206), or a provider failure (line 222).
The push of the user turn (line 196) happens before the two later failure
points, so it persists in the returned store even when the attempt fails. -/
def generateAttempt (provider : Nat → List Msg → Option String) (retryCount : Nat)
    (store : Store) (callSid userMessage : String) (now : Nat) : Store × Option String :=
  match Store.get store callSid with
  | none => (store, none)
  | some callSession =>
    match supportedLanguages callSession.language with
    | none => (Store.set store callSid (pushTurn callSession "user" userMessage now), none)
    | some prof =>
      match provider retryCount
          (buildMessages (pushTurn callSession "user" userMessage now) prof.name) with
      | none => (Store.set store callSid (pushTurn callSession "user" userMessage now), none)
      | some aiResponse =>
        (Store.set store callSid
            (pushTurn (pushTurn callSession "user" userMessage now) "assistant" aiResponse now),
          some aiResponse)

/-- Retry driver of `generateResponse` (src/server.js lines 245-256).
`remaining` is kept equal to `3 - retryCount`, so the source guard
`retryCount < 3` is exactly `remaining` being a successor. On failure with
retries left, the backoff delay `Math.pow(2, retryCount) * 1000` milliseconds
(line 250) is recorded in the third component, then the call recurses with
`retryCount + 1` (line 252); with no retries left the apology string is
returned (line 255). Returns the final store, the returned utterance, and the
list of backoff delays performed, in order. -/
def generateResponseGo (provider : Nat → List Msg → Option String)
    (callSid userMessage : String) (now : Nat) :
    Nat → Nat → Store → Store × String × List Nat
  | retryCount, remaining, store =>
    match generateAttempt provider retryCount store callSid userMessage now with
    | (store1, some aiResponse) => (store1, aiResponse, [])
    | (store1, none) =>
      match remaining with
      | 0 => (store1, fallbackMessage, [])
      | r + 1 =>
        let rest := generateResponseGo provider callSid userMessage now (retryCount + 1) r store1
        (rest.1, rest.2.1, 2 ^ retryCount * 1000 :: rest.2.2)

/-- `generateResponse(callSid, userMessage)` with the default `retryCount = 0`
(src/server.js line 190): up to 3 retries remain beyond the initial attempt. -/
def generateResponse (provider : Nat → List Msg → Option String) (store : Store)
    (callSid userMessage : String) (now : Nat) : Store × String × List Nat :=
  generateResponseGo provider callSid userMessage now 0 3 store

/-- `endCall(callSid)` (src/server.js lines 327-341): if a session is present,
mark it inactive, set `endTime`, and delete the entry; otherwise do nothing.
The second component is the mutated session object (which in JavaScript
outlives the map entry) — `none` when no session was found. The `call_ended`
log write is a no-op here. The function is total: no path throws. -/
def endCall (store : Store) (callSid : String) (now : Nat) : Store × Option CallSession :=
  match Store.get store callSid with
  | none => (store, none)
  | some callSession =>
    let ended := { callSession with isActive := false, endTime := some now }
    (Store.delete (Store.set store callSid ended) callSid, some ended)

/-- JavaScript truthiness test `!speechResult` (src/server.js line 476):
true for a missing field and for the empty string. -/
def speechMissing : Option String → Bool
  | none => true
  | some s => decide (s = "")

/-- JavaScript comparison `confidence < 0.5` (src/server.js line 476):
`undefined < 0.5` is false, so a missing confidence does not trigger the
low-confidence branch. The threshold 0.5 is written `mkRat 1 2`. -/
def lowConfidence : Option ℚ → Bool
  | none => false
  | some c => decide (c < mkRat 1 2)

/-- Observable outcome of the `/voice/process` route handler
(src/server.js lines 457-521): the 400 response for a missing `CallSid`
(line 470), the please-repeat TwiML of the low-confidence branch
(lines 478-487), or the TwiML speaking the utterance returned by
`generateResponse` (lines 491-506). -/
inductive ProcessResult where
  | badRequest
  | repeatPrompt
  | reply (utterance : String)
deriving DecidableEq

/-- JavaScript truthiness test `!callSid` (src/server.js line 468): like
`speechMissing`, true for a missing field and for the empty string, either of
which draws the 400 response at line 470 before anything else runs. -/
def callSidMissing : Option String → Bool
  | none => true
  | some s => decide (s = "")

/-- The `/voice/process` route handler (src/server.js lines 457-521).
The surrounding `catch` (line 508) is unreachable in this model because
`generateResponse` never throws: its only throw sites are inside its own
retry `catch`. -/
def voiceProcess (provider : Nat → List Msg → Option String) (store : Store)
    (callSid? : Option String) (speechResult : Option String) (confidence : Option ℚ)
    (now : Nat) : Store × ProcessResult :=
  if callSidMissing callSid? then
    (store, ProcessResult.badRequest)
  else if speechMissing speechResult || lowConfidence confidence then
    (store, ProcessResult.repeatPrompt)
  else
    let r := generateResponse provider store (callSid?.getD "") (speechResult.getD "") now
    (r.1, ProcessResult.reply r.2.1)

/-- Voice selection of `generateSpeech` (src/server.js line 262):
`supportedLanguages[language]?.voice` with default `alloy`. -/
def voiceFor (language : String) : String :=
  ((supportedLanguages language).map LangProfile.voice).getD "alloy"

/-- Language-code selection of `transcribeAudio` (src/server.js line 175):
`supportedLanguages[language]?.whisperLang` with default `en`. -/
def whisperLangFor (language : String) : String :=
  ((supportedLanguages language).map LangProfile.whisperLang).getD "en"

/-- Concrete store holding the session created for call `CA1` (language
`en`), used as a test input below. -/
def storeEn : Store := (initializeCall [] "CA1" "+15551234567" "en" 0).1

/-- The session object created for call `CA1` (language `en`). -/
def sessionEn : CallSession := (initializeCall [] "CA1" "+15551234567" "en" 0).2

/-- Concrete store holding the session created for call `CA1` with the
unrecognized language `xx`, used as a test input below. -/
def storeXx : Store := (initializeCall [] "CA1" "+15551234567" "xx" 0).1

/-- The session object created for call `CA1` with language `xx`. -/
def sessionXx : CallSession := (initializeCall [] "CA1" "+15551234567" "xx" 0).2

/-- A session for call `CA1` whose history already holds 15 turns, used as a
test input below. -/
def sessionFifteen : CallSession :=
  { callSid := "CA1"
    fromNumber := "+15551234567"
    language := "en"
    startTime := 0
    conversationHistory :=
      (List.range 15).map fun i => { role := "user", content := toString i, timestamp := i }
    audioBuffer := []
    isActive := true
    contextWindow := []
    endTime := none }

/-- A store holding `sessionFifteen` under `CA1`. -/
def storeFifteen : Store := Store.set [] "CA1" sessionFifteen

/-! ## Store lemmas -/

/-- Looking up a key right after setting it yields the stored session. -/
@[simp]
theorem Store.get_set_self (store : Store) (k : String) (v : CallSession) :
    Store.get (Store.set store k v) k = some v := by
  induction store with
  | nil => simp [Store.set, Store.get]
  | cons kv rest ih =>
    obtain ⟨k', w⟩ := kv
    by_cases h : k' = k <;> simp [Store.set, Store.get, h, ih]

/-- Looking up a key right after deleting it yields nothing. -/
@[simp]
theorem Store.get_delete_self (store : Store) (k : String) :
    Store.get (Store.delete store k) k = none := by
  induction store with
  | nil => simp [Store.delete, Store.get]
  | cons kv rest ih =>
    obtain ⟨k', w⟩ := kv
    by_cases h : k' = k <;> simp [Store.delete, Store.get, h, ih]

/-- Setting the same key twice keeps only the second value. -/
@[simp]
theorem Store.set_set (store : Store) (k : String) (v w : CallSession) :
    Store.set (Store.set store k v) k w = Store.set store k w := by
  induction store with
  | nil => simp [Store.set]
  | cons kv rest ih =>
    obtain ⟨k', x⟩ := kv
    by_cases h : k' = k <;> simp [Store.set, h, ih]

/-! ## Session lemmas -/

/-- Pushing a turn does not change the session language. -/
@[simp]
theorem pushTurn_language (sess : CallSession) (role content : String) (now : Nat) :
    (pushTurn sess role content now).language = sess.language := rfl

/-- Pushing a turn appends exactly one entry to the history. -/
theorem pushTurn_history (sess : CallSession) (role content : String) (now : Nat) :
    (pushTurn sess role content now).conversationHistory =
      sess.conversationHistory ++ [{ role := role, content := content, timestamp := now }] := rfl

/-! ## Attempt-level lemmas for `generateResponse` -/

/-- An attempt on a call id with no session leaves the store unchanged and
fails (the throw at src/server.js line 193, before any history push). -/
theorem generateAttempt_noSession (provider : Nat → List Msg → Option String) (n : Nat)
    (store : Store) (callSid userMessage : String) (now : Nat)
    (hget : Store.get store callSid = none) :
    generateAttempt provider n store callSid userMessage now = (store, none) := by
  unfold generateAttempt
  rw [hget]

/-- An attempt that fails at the language lookup or at the provider still
persists the pushed user turn (src/server.js line 196 precedes both failure
points) and yields a thrown error. -/
theorem generateAttempt_fail (provider : Nat → List Msg → Option String) (n : Nat)
    (store : Store) (sess : CallSession) (callSid userMessage : String) (now : Nat)
    (hget : Store.get store callSid = some sess)
    (hfail : supportedLanguages sess.language = none ∨ ∀ m, provider n m = none) :
    generateAttempt provider n store callSid userMessage now =
      (Store.set store callSid (pushTurn sess "user" userMessage now), none) := by
  rcases hfail with h | h
  · simp only [generateAttempt, hget, h]
  · cases hl : supportedLanguages sess.language with
    | none => simp only [generateAttempt, hget, hl]
    | some prof => simp only [generateAttempt, hget, hl, h]

/-- An attempt on an existing session with a recognized language and a
successful provider call appends a user turn then an assistant turn and
returns the provider utterance unchanged. -/
theorem generateAttempt_ok (provider : Nat → List Msg → Option String) (n : Nat)
    (store : Store) (sess : CallSession) (prof : LangProfile)
    (callSid userMessage : String) (now : Nat) (u : String)
    (hget : Store.get store callSid = some sess)
    (hlang : supportedLanguages sess.language = some prof)
    (hp : provider n (buildMessages (pushTurn sess "user" userMessage now) prof.name) = some u) :
    generateAttempt provider n store callSid userMessage now =
      (Store.set store callSid
          (pushTurn (pushTurn sess "user" userMessage now) "assistant" u now),
        some u) := by
  simp only [generateAttempt, hget, hlang, hp]

/-! ## Run-level lemmas for the retry driver -/

/-- A successful attempt ends the retry loop at once with the provider
utterance and no further backoff. -/
theorem generateResponseGo_ok (provider : Nat → List Msg → Option String)
    (callSid userMessage : String) (now retryCount remaining : Nat) (store S : Store)
    (u : String)
    (h : generateAttempt provider retryCount store callSid userMessage now = (S, some u)) :
    generateResponseGo provider callSid userMessage now retryCount remaining store =
      (S, u, []) := by
  unfold generateResponseGo
  rw [h]

/-- A failed attempt with no retries left returns the apology string. -/
theorem generateResponseGo_fail_zero (provider : Nat → List Msg → Option String)
    (callSid userMessage : String) (now retryCount : Nat) (store S : Store)
    (h : generateAttempt provider retryCount store callSid userMessage now = (S, none)) :
    generateResponseGo provider callSid userMessage now retryCount 0 store =
      (S, fallbackMessage, []) := by
  unfold generateResponseGo
  rw [h]

/-- A failed attempt with retries left waits `2 ^ retryCount * 1000`
milliseconds and recurses on the store the failed attempt produced. -/
theorem generateResponseGo_fail_succ (provider : Nat → List Msg → Option String)
    (callSid userMessage : String) (now retryCount r : Nat) (store S : Store)
    (h : generateAttempt provider retryCount store callSid userMessage now = (S, none)) :
    generateResponseGo provider callSid userMessage now retryCount (r + 1) store =
      ((generateResponseGo provider callSid userMessage now (retryCount + 1) r S).1,
       (generateResponseGo provider callSid userMessage now (retryCount + 1) r S).2.1,
       2 ^ retryCount * 1000 ::
         (generateResponseGo provider callSid userMessage now (retryCount + 1) r S).2.2) := by
  conv_lhs => unfold generateResponseGo
  rw [h]

/-- `generateResponse` on a call id with no session: every attempt throws at
the session lookup (src/server.js line 193), each throw is caught by the
retry handler, the three backoff delays elapse, and the apology string is
returned through the normal return path with the store untouched. -/
theorem generateResponse_noSession (provider : Nat → List Msg → Option String)
    (store : Store) (callSid userMessage : String) (now : Nat)
    (hget : Store.get store callSid = none) :
    generateResponse provider store callSid userMessage now =
      (store, fallbackMessage, [1000, 2000, 4000]) := by
  have e : ∀ n, generateAttempt provider n store callSid userMessage now = (store, none) :=
    fun n => generateAttempt_noSession provider n store callSid userMessage now hget
  unfold generateResponse
  rw [generateResponseGo_fail_succ _ _ _ _ _ _ _ _ (e 0),
    generateResponseGo_fail_succ _ _ _ _ _ _ _ _ (e 1),
    generateResponseGo_fail_succ _ _ _ _ _ _ _ _ (e 2),
    generateResponseGo_fail_zero _ _ _ _ _ _ _ (e 3)]
  norm_num

/-- `generateResponse` when every attempt fails — because the session language
is outside the `supportedLanguages` table (the lookup at src/server.js
line 206 throws) or because the provider fails on attempts 0 through 3.
Each of the 4 attempts pushes the user turn again before failing, the three
backoff delays elapse, and the apology string is returned without being
appended to the history. -/
theorem generateResponse_fail_run (provider : Nat → List Msg → Option String)
    (store : Store) (sess : CallSession) (callSid userMessage : String) (now : Nat)
    (hget : Store.get store callSid = some sess)
    (hfail : supportedLanguages sess.language = none ∨
      ∀ n, n ≤ 3 → ∀ m, provider n m = none) :
    generateResponse provider store callSid userMessage now =
      (Store.set store callSid
          { sess with conversationHistory := sess.conversationHistory ++
              List.replicate 4 { role := "user", content := userMessage, timestamp := now } },
        fallbackMessage, [1000, 2000, 4000]) := by
  have step : ∀ (n : Nat), n ≤ 3 → ∀ (st : Store) (s : CallSession),
      Store.get st callSid = some s → s.language = sess.language →
      generateAttempt provider n st callSid userMessage now =
        (Store.set st callSid (pushTurn s "user" userMessage now), none) := by
    intro n hn st s hg hl
    refine generateAttempt_fail provider n st s callSid userMessage now hg ?_
    rcases hfail with h | h
    · exact Or.inl (hl ▸ h)
    · exact Or.inr (h n hn)
  set p1 := pushTurn sess "user" userMessage now with hp1
  set p2 := pushTurn p1 "user" userMessage now with hp2
  set p3 := pushTurn p2 "user" userMessage now with hp3
  have e0 := step 0 (by norm_num) store sess hget rfl
  have e1 := step 1 (by norm_num) (Store.set store callSid p1) p1
    (Store.get_set_self store callSid p1) rfl
  have e2 := step 2 (by norm_num) (Store.set (Store.set store callSid p1) callSid p2) p2
    (Store.get_set_self (Store.set store callSid p1) callSid p2) rfl
  have e3 := step 3 (by norm_num)
    (Store.set (Store.set (Store.set store callSid p1) callSid p2) callSid p3) p3
    (Store.get_set_self (Store.set (Store.set store callSid p1) callSid p2) callSid p3) rfl
  unfold generateResponse
  rw [generateResponseGo_fail_succ _ _ _ _ _ _ _ _ e0,
    generateResponseGo_fail_succ _ _ _ _ _ _ _ _ e1,
    generateResponseGo_fail_succ _ _ _ _ _ _ _ _ e2,
    generateResponseGo_fail_zero _ _ _ _ _ _ _ e3]
  simp only [Store.set_set]
  simp [hp1, hp2, hp3, pushTurn, List.replicate, List.append_assoc]

/-! ## Claim C1 -/

/-- C1 is false of the code: `initializeCall` on a call id that already maps
to an active session does not reuse that session. Concretely, after creating
session `CA1` and completing one successful turn (history length 2), a second
`initializeCall` for `CA1` leaves the store mapping `CA1` to a fresh session
with empty history — the accumulated history is discarded, not preserved. -/
theorem C1_counterexample :
    (Store.get (generateResponse (fun _ _ => some "Hello there!")
        (initializeCall [] "CA1" "+15551234567" "en" 0).1 "CA1" "Hi" 1).1 "CA1").map
        (fun s => s.conversationHistory.length) = some 2 ∧
    (Store.get (initializeCall (generateResponse (fun _ _ => some "Hello there!")
        (initializeCall [] "CA1" "+15551234567" "en" 0).1 "CA1" "Hi" 1).1
        "CA1" "+15551234567" "en" 2).1 "CA1").map
        (fun s => s.conversationHistory) = some [] := by
  decide

/-- C1 amended: calling `initializeCall` again with a call id that already
maps to an active session does not reuse the existing session; it overwrites
the entry with a fresh session whose history is empty, `isActive` is true and
`startTime` is the time of the second call. -/
theorem C1_amended_reinitialize_overwrites (store : Store)
    (callSid from1 from2 lang1 lang2 : String) (t1 t2 : Nat) :
    Store.get (initializeCall (initializeCall store callSid from1 lang1 t1).1
        callSid from2 lang2 t2).1 callSid =
      some (initializeCall (initializeCall store callSid from1 lang1 t1).1
        callSid from2 lang2 t2).2 ∧
    (initializeCall (initializeCall store callSid from1 lang1 t1).1
        callSid from2 lang2 t2).2.conversationHistory = [] ∧
    (initializeCall (initializeCall store callSid from1 lang1 t1).1
        callSid from2 lang2 t2).2.isActive = true ∧
    (initializeCall (initializeCall store callSid from1 lang1 t1).1
        callSid from2 lang2 t2).2.startTime = t2 :=
  ⟨Store.get_set_self _ _ _, rfl, rfl, rfl⟩

/-! ## Claim C3 -/

/-- C3 is false of the code: `generateResponse` on a call id with no session
does not surface an error to its caller. The `throw` at src/server.js
line 193 is caught by the retry `catch` of the function itself (line 245), the three
backoff delays elapse, and the fixed apology utterance is returned through
the ordinary return path — even with a provider that would have answered
normally, whose reply is never used. -/
theorem C3_counterexample :
    generateResponse (fun _ _ => some "Normal reply") [] "UNKNOWN" "Hi" 0 =
      ([], fallbackMessage, [1000, 2000, 4000]) ∧
    fallbackMessage ≠ "Normal reply" := by
  decide

/-- C3 amended: `endCall` on an unknown call id is indeed a no-op, but
`generateResponse` on an unknown call id does not yield an error to the
caller: the session-not-found throw is swallowed by the retry handler, the
three backoff delays of 1s/2s/4s elapse, and the fixed apology utterance is
returned with the store unchanged. -/
theorem C3_amended_unknown_id (provider : Nat → List Msg → Option String)
    (store : Store) (callSid userMessage : String) (now : Nat)
    (hget : Store.get store callSid = none) :
    generateResponse provider store callSid userMessage now =
      (store, fallbackMessage, [1000, 2000, 4000]) ∧
    ∀ t, endCall store callSid t = (store, none) := by
  refine ⟨generateResponse_noSession provider store callSid userMessage now hget, ?_⟩
  intro t
  simp only [endCall, hget]

/-- Witness for C3: the amended statement evaluated on the empty store. -/
theorem C3_witness :
    Store.get ([] : Store) "UNKNOWN" = none ∧
    (generateResponse (fun _ _ => some "ok") [] "UNKNOWN" "Hi" 0 =
        ([], fallbackMessage, [1000, 2000, 4000]) ∧
      ∀ t, endCall [] "UNKNOWN" t = ([], none)) :=
  ⟨rfl, C3_amended_unknown_id (fun _ _ => some "ok") [] "UNKNOWN" "Hi" 0 rfl⟩

/-! ## Claim C9 -/

/-- C9: a `/voice/process` turn carrying a non-empty call id together with a
supplied confidence below 0.5, or with no recognized speech text, is rejected
before generation: the please-repeat response is produced, the store (hence
every session history) is unchanged, and the outcome is the same for every
provider — generation is never consulted. (An absent or empty call id is
rejected even earlier, with the 400 response of src/server.js line 470.) -/
theorem C9_low_confidence_rejected (store : Store) (callSid : String)
    (speechResult : Option String) (confidence : Option ℚ) (now : Nat)
    (hcs : callSid ≠ "")
    (h : lowConfidence confidence = true ∨ speechMissing speechResult = true) :
    ∀ provider, voiceProcess provider store (some callSid) speechResult confidence now =
      (store, ProcessResult.repeatPrompt) := by
  intro provider
  unfold voiceProcess
  rcases h with h | h <;> simp [callSidMissing, hcs, h]

/-- Witness for C9: a concrete turn with confidence 0.2 on a one-session
store is rejected and leaves the store unchanged. -/
theorem C9_witness :
    "CA1" ≠ "" ∧
    (lowConfidence (some (mkRat 1 5)) = true ∨ speechMissing (some "hi") = true) ∧
    ∀ provider, voiceProcess provider (initializeCall [] "CA1" "+15551234567" "en" 0).1
        (some "CA1") (some "hi") (some (mkRat 1 5)) 7 =
      ((initializeCall [] "CA1" "+15551234567" "en" 0).1, ProcessResult.repeatPrompt) :=
  ⟨by decide, Or.inl (by decide),
    C9_low_confidence_rejected (initializeCall [] "CA1" "+15551234567" "en" 0).1 "CA1"
      (some "hi") (some (mkRat 1 5)) 7 (by decide) (Or.inl (by decide))⟩

/-! ## Claim C10 -/

/-- C10: `endCall` on an existing session marks the session object inactive,
sets its `endTime`, and removes it from the store, so a subsequent lookup is
absent; a second `endCall` on the same id, and an `endCall` on any unknown
id, is a no-op returning the store unchanged — and every path is a total
function application, so nothing throws. -/
theorem C10_terminate_idempotent (store : Store) (callSid : String)
    (sess : CallSession) (t1 t2 : Nat)
    (hget : Store.get store callSid = some sess) :
    ((endCall store callSid t1).2.map CallSession.isActive = some false) ∧
    ((endCall store callSid t1).2.map CallSession.endTime = some (some t1)) ∧
    Store.get (endCall store callSid t1).1 callSid = none ∧
    endCall (endCall store callSid t1).1 callSid t2 = ((endCall store callSid t1).1, none) ∧
    (∀ (s : Store) (c : String) (t : Nat), Store.get s c = none → endCall s c t = (s, none)) := by
  have h1 : endCall store callSid t1 =
      (Store.delete (Store.set store callSid
          { sess with isActive := false, endTime := some t1 }) callSid,
        some { sess with isActive := false, endTime := some t1 }) := by
    simp only [endCall, hget]
  have hnone : ∀ (s : Store) (c : String) (t : Nat),
      Store.get s c = none → endCall s c t = (s, none) := by
    intro s c t hg
    simp only [endCall, hg]
  have h2 : Store.get (endCall store callSid t1).1 callSid = none := by
    rw [h1]
    exact Store.get_delete_self _ _
  exact ⟨by rw [h1]; rfl, by rw [h1]; rfl, h2, hnone _ _ _ h2, hnone⟩

/-- Witness for C10: terminating the session created for `CA1` at time 5 and
again at time 6 on a concrete store. -/
theorem C10_witness :
    Store.get (initializeCall [] "CA1" "+15551234567" "en" 0).1 "CA1" =
      some (initializeCall [] "CA1" "+15551234567" "en" 0).2 ∧
    (((endCall (initializeCall [] "CA1" "+15551234567" "en" 0).1 "CA1" 5).2.map
        CallSession.isActive = some false) ∧
      ((endCall (initializeCall [] "CA1" "+15551234567" "en" 0).1 "CA1" 5).2.map
        CallSession.endTime = some (some 5)) ∧
      Store.get (endCall (initializeCall [] "CA1" "+15551234567" "en" 0).1 "CA1" 5).1 "CA1" =
        none ∧
      endCall (endCall (initializeCall [] "CA1" "+15551234567" "en" 0).1 "CA1" 5).1 "CA1" 6 =
        ((endCall (initializeCall [] "CA1" "+15551234567" "en" 0).1 "CA1" 5).1, none) ∧
      (∀ (s : Store) (c : String) (t : Nat), Store.get s c = none → endCall s c t = (s, none))) :=
  ⟨rfl, C10_terminate_idempotent (initializeCall [] "CA1" "+15551234567" "en" 0).1 "CA1"
    (initializeCall [] "CA1" "+15551234567" "en" 0).2 5 6 rfl⟩

/-! ## Claim C2 -/

/-- C2 is false of the code: when every attempt fails, the apology string is
returned (src/server.js line 255 is in the `catch`, after the history pushes
of the failed attempts) but it is never appended to the history — the stored
history ends with a `user` turn, and contains no `assistant` turn at all. -/
theorem C2_counterexample :
    (generateResponse (fun _ _ => none)
        (initializeCall [] "CA1" "+15551234567" "en" 0).1 "CA1" "Hi" 1).2.1 =
      fallbackMessage ∧
    (Store.get (generateResponse (fun _ _ => none)
        (initializeCall [] "CA1" "+15551234567" "en" 0).1 "CA1" "Hi" 1).1 "CA1").map
        (fun s => s.conversationHistory.map Turn.role) =
      some ["user", "user", "user", "user"] := by
  decide

/-- C2 amended: when generation fails on the initial attempt and on all
3 retries, the fixed apology utterance is returned but is NOT appended to the
session history; instead the history has grown by the four `user` turns the
failed attempts pushed, so it ends with a `user` turn rather than an
`assistant` turn. -/
theorem C2_amended_fallback_not_appended (provider : Nat → List Msg → Option String)
    (store : Store) (sess : CallSession) (callSid userMessage : String) (now : Nat)
    (hget : Store.get store callSid = some sess)
    (hfail : ∀ n, n ≤ 3 → ∀ m, provider n m = none) :
    generateResponse provider store callSid userMessage now =
      (Store.set store callSid
          { sess with conversationHistory := sess.conversationHistory ++
              List.replicate 4 { role := "user", content := userMessage, timestamp := now } },
        fallbackMessage, [1000, 2000, 4000]) :=
  generateResponse_fail_run provider store sess callSid userMessage now hget (Or.inr hfail)

/-- Witness for C2: the amended statement evaluated with an always-failing
provider on the session created for `CA1`. -/
theorem C2_witness :
    Store.get storeEn "CA1" = some sessionEn ∧
    (∀ n, n ≤ 3 → ∀ m : List Msg,
      (fun (_ : Nat) (_ : List Msg) => (none : Option String)) n m = none) ∧
    generateResponse (fun _ _ => none) storeEn "CA1" "Hi" 1 =
      (Store.set storeEn "CA1"
          { sessionEn with conversationHistory := sessionEn.conversationHistory ++
              List.replicate 4 { role := "user", content := "Hi", timestamp := 1 } },
        fallbackMessage, [1000, 2000, 4000]) :=
  ⟨rfl, fun _ _ _ => rfl,
    C2_amended_fallback_not_appended (fun _ _ => none) storeEn sessionEn "CA1" "Hi" 1 rfl
      (fun _ _ _ => rfl)⟩

/-! ## Claim C5 -/

/-- C5: the user message is pushed at the start of every attempt, including
each retry, so when the provider fails on all 4 attempts the history grows by
exactly 4 identical `user` turns and gains no `assistant` turn, while the
single apology utterance is returned. -/
theorem C5_user_pushed_every_attempt (provider : Nat → List Msg → Option String)
    (store : Store) (sess : CallSession) (callSid userMessage : String) (now : Nat)
    (hget : Store.get store callSid = some sess)
    (hfail : ∀ n, n ≤ 3 → ∀ m, provider n m = none) :
    (generateResponse provider store callSid userMessage now).2.1 = fallbackMessage ∧
    (Store.get (generateResponse provider store callSid userMessage now).1 callSid).map
        CallSession.conversationHistory =
      some (sess.conversationHistory ++
        List.replicate 4 { role := "user", content := userMessage, timestamp := now }) := by
  have h := generateResponse_fail_run provider store sess callSid userMessage now hget
    (Or.inr hfail)
  rw [h]
  exact ⟨rfl, by rw [Store.get_set_self]; rfl⟩

/-- Witness for C5: an always-failing provider on the session created for
`CA2`, with the four pushed user turns visible in the final history. -/
theorem C5_witness :
    Store.get (initializeCall [] "CA2" "+15557654321" "es" 3).1 "CA2" =
      some (initializeCall [] "CA2" "+15557654321" "es" 3).2 ∧
    (∀ n, n ≤ 3 → ∀ m : List Msg,
      (fun (_ : Nat) (_ : List Msg) => (none : Option String)) n m = none) ∧
    ((generateResponse (fun _ _ => none)
        (initializeCall [] "CA2" "+15557654321" "es" 3).1 "CA2" "Hola" 4).2.1 =
      fallbackMessage ∧
    (Store.get (generateResponse (fun _ _ => none)
        (initializeCall [] "CA2" "+15557654321" "es" 3).1 "CA2" "Hola" 4).1 "CA2").map
        CallSession.conversationHistory =
      some ((initializeCall [] "CA2" "+15557654321" "es" 3).2.conversationHistory ++
        List.replicate 4 { role := "user", content := "Hola", timestamp := 4 })) :=
  ⟨rfl, fun _ _ _ => rfl,
    C5_user_pushed_every_attempt (fun _ _ => none)
      (initializeCall [] "CA2" "+15557654321" "es" 3).1
      (initializeCall [] "CA2" "+15557654321" "es" 3).2 "CA2" "Hola" 4 rfl (fun _ _ _ => rfl)⟩

/-! ## Claim C4 -/

/-- C4 is false of the code: a session created with the unrecognized language
`xx` stores `xx` verbatim (no fallback at creation), and generation does not
complete: the profile lookup at src/server.js line 206 hits `undefined`, the
resulting throw is retried and the apology — not the provider utterance — is
returned, even though the provider itself would have succeeded. -/
theorem C4_counterexample :
    (Store.get (initializeCall [] "CA1" "+15551234567" "xx" 0).1 "CA1").map
        CallSession.language = some "xx" ∧
    (generateResponse (fun _ _ => some "Bonjour")
        (initializeCall [] "CA1" "+15551234567" "xx" 0).1 "CA1" "Hi" 1).2.1 =
      fallbackMessage ∧
    fallbackMessage ≠ "Bonjour" := by
  decide

/-- C4 amended: `initializeCall` stores an unrecognized language verbatim.
Only the transcription and synthesis lookups fall back to configured defaults
(`en` and `alloy`); the generation-step lookup has no fallback, so for a
session whose language is outside the supported set every generation attempt
throws before reaching the provider, and after 4 attempts `generateResponse`
returns the apology — for every provider. -/
theorem C4_amended_no_generation_fallback (provider : Nat → List Msg → Option String)
    (store : Store) (sess : CallSession) (callSid userMessage : String) (now : Nat)
    (hget : Store.get store callSid = some sess)
    (hlang : supportedLanguages sess.language = none) :
    generateResponse provider store callSid userMessage now =
      (Store.set store callSid
          { sess with conversationHistory := sess.conversationHistory ++
              List.replicate 4 { role := "user", content := userMessage, timestamp := now } },
        fallbackMessage, [1000, 2000, 4000]) ∧
    voiceFor sess.language = "alloy" ∧
    whisperLangFor sess.language = "en" ∧
    (∀ (st : Store) (c f : String) (t : Nat),
      (initializeCall st c f sess.language t).2.language = sess.language) := by
  refine ⟨generateResponse_fail_run provider store sess callSid userMessage now hget
    (Or.inl hlang), ?_, ?_, fun _ _ _ _ => rfl⟩
  · simp [voiceFor, hlang]
  · simp [whisperLangFor, hlang]

/-- Witness for C4: the amended statement evaluated for language `xx` with a
provider that would have answered. -/
theorem C4_witness :
    Store.get storeXx "CA1" = some sessionXx ∧
    supportedLanguages sessionXx.language = none ∧
    (generateResponse (fun _ _ => some "Bonjour") storeXx "CA1" "Hi" 1 =
      (Store.set storeXx "CA1"
          { sessionXx with conversationHistory := sessionXx.conversationHistory ++
              List.replicate 4 { role := "user", content := "Hi", timestamp := 1 } },
        fallbackMessage, [1000, 2000, 4000]) ∧
    voiceFor sessionXx.language = "alloy" ∧
    whisperLangFor sessionXx.language = "en" ∧
    (∀ (st : Store) (c f : String) (t : Nat),
      (initializeCall st c f sessionXx.language t).2.language = sessionXx.language)) :=
  ⟨rfl, rfl,
    C4_amended_no_generation_fallback (fun _ _ => some "Bonjour") storeXx sessionXx
      "CA1" "Hi" 1 rfl rfl⟩

/-! ## Claim C6 -/

/-- C6: with an existing session and a recognized language, if the provider
(whose outcome per attempt index is `f`) first succeeds on attempt `k ≤ 3`,
`generateResponse` returns that utterance unchanged after exactly the backoff
delays `2 ^ i * 1000` milliseconds for `i < k` (initial segments of 1s, 2s, 4s); if all
4 attempts fail, it returns the static apology after exactly the three
delays, so the caller never observes a retryable failure — every outcome is
an ordinary returned utterance. -/
theorem C6_retry_backoff (f : Nat → Option String) (store : Store) (sess : CallSession)
    (prof : LangProfile) (callSid userMessage : String) (now : Nat)
    (hget : Store.get store callSid = some sess)
    (hlang : supportedLanguages sess.language = some prof) :
    (∀ k u, k ≤ 3 → (∀ n, n < k → f n = none) → f k = some u →
      (generateResponse (fun n _ => f n) store callSid userMessage now).2 =
        (u, (List.range k).map fun i => 2 ^ i * 1000)) ∧
    ((∀ n, n ≤ 3 → f n = none) →
      (generateResponse (fun n _ => f n) store callSid userMessage now).2 =
        (fallbackMessage, [1000, 2000, 4000])) := by
  constructor
  · intro k u hk h0 hfk
    have fail : ∀ (n : Nat) (st : Store) (s : CallSession), Store.get st callSid = some s →
        f n = none →
        generateAttempt (fun n _ => f n) n st callSid userMessage now =
          (Store.set st callSid (pushTurn s "user" userMessage now), none) := by
      intro n st s hg hf
      exact generateAttempt_fail (fun n _ => f n) n st s callSid userMessage now hg
        (Or.inr fun m => hf)
    interval_cases k
    · have e0 := generateAttempt_ok (fun n _ => f n) 0 store sess prof callSid userMessage
        now u hget hlang hfk
      unfold generateResponse
      rw [generateResponseGo_ok _ _ _ _ _ _ _ _ _ e0]
      simp
    · have e0 := fail 0 store sess hget (h0 0 (by norm_num))
      have e1 := generateAttempt_ok (fun n _ => f n) 1
        (Store.set store callSid (pushTurn sess "user" userMessage now))
        (pushTurn sess "user" userMessage now) prof callSid userMessage now u
        (Store.get_set_self _ _ _) hlang hfk
      unfold generateResponse
      rw [generateResponseGo_fail_succ _ _ _ _ _ _ _ _ e0,
        generateResponseGo_ok _ _ _ _ _ _ _ _ _ e1]
      norm_num [List.range_succ]
    · have e0 := fail 0 store sess hget (h0 0 (by norm_num))
      have e1 := fail 1 _ _
        (Store.get_set_self store callSid (pushTurn sess "user" userMessage now))
        (h0 1 (by norm_num))
      have e2 := generateAttempt_ok (fun n _ => f n) 2
        (Store.set (Store.set store callSid (pushTurn sess "user" userMessage now)) callSid
          (pushTurn (pushTurn sess "user" userMessage now) "user" userMessage now))
        (pushTurn (pushTurn sess "user" userMessage now) "user" userMessage now)
        prof callSid userMessage now u (Store.get_set_self _ _ _) hlang hfk
      unfold generateResponse
      rw [generateResponseGo_fail_succ _ _ _ _ _ _ _ _ e0,
        generateResponseGo_fail_succ _ _ _ _ _ _ _ _ e1,
        generateResponseGo_ok _ _ _ _ _ _ _ _ _ e2]
      norm_num [List.range_succ]
    · have e0 := fail 0 store sess hget (h0 0 (by norm_num))
      have e1 := fail 1 _ _
        (Store.get_set_self store callSid (pushTurn sess "user" userMessage now))
        (h0 1 (by norm_num))
      have e2 := fail 2 _ _
        (Store.get_set_self (Store.set store callSid (pushTurn sess "user" userMessage now))
          callSid (pushTurn (pushTurn sess "user" userMessage now) "user" userMessage now))
        (h0 2 (by norm_num))
      have e3 := generateAttempt_ok (fun n _ => f n) 3
        (Store.set (Store.set (Store.set store callSid
            (pushTurn sess "user" userMessage now)) callSid
          (pushTurn (pushTurn sess "user" userMessage now) "user" userMessage now)) callSid
          (pushTurn (pushTurn (pushTurn sess "user" userMessage now) "user" userMessage now)
            "user" userMessage now))
        (pushTurn (pushTurn (pushTurn sess "user" userMessage now) "user" userMessage now)
          "user" userMessage now)
        prof callSid userMessage now u (Store.get_set_self _ _ _) hlang hfk
      unfold generateResponse
      rw [generateResponseGo_fail_succ _ _ _ _ _ _ _ _ e0,
        generateResponseGo_fail_succ _ _ _ _ _ _ _ _ e1,
        generateResponseGo_fail_succ _ _ _ _ _ _ _ _ e2,
        generateResponseGo_ok _ _ _ _ _ _ _ _ _ e3]
      norm_num [List.range_succ]
  · intro hf
    have h := generateResponse_fail_run (fun n _ => f n) store sess callSid userMessage now
      hget (Or.inr fun n hn m => hf n hn)
    rw [h]

/-- Witness for C6: two provider failures followed by a success on attempt 2
return the successful utterance after exactly the delays 1s and 2s. -/
theorem C6_witness :
    Store.get storeEn "CA1" = some sessionEn ∧
    supportedLanguages sessionEn.language =
      some { name := "English", voice := "alloy", whisperLang := "en" } ∧
    (generateResponse (fun n _ => if n = 2 then some "Hi!" else none)
        storeEn "CA1" "Hey" 1).2 = ("Hi!", [1000, 2000]) :=
  ⟨rfl, rfl, by
    have h := (C6_retry_backoff (fun n => if n = 2 then some "Hi!" else none) storeEn
      sessionEn { name := "English", voice := "alloy", whisperLang := "en" }
      "CA1" "Hey" 1 rfl rfl).1 2 "Hi!" (by norm_num)
      (fun n hn => by interval_cases n <;> rfl) rfl
    simpa using h⟩

/-! ## Claim C7 -/

/-- C7 is false of the code: a turn whose generation succeeds on a retry
attempt (here: failure on attempt 0, success on attempt 1) increases the
history length by 3, not 2 — the user message was pushed once per attempt —
even though the successful utterance is returned. -/
theorem C7_counterexample :
    (voiceProcess (fun n _ => if n = 0 then none else some "Sure!") storeEn
        (some "CA1") (some "Hello?") (some (mkRat 9 10)) 1).2 =
      ProcessResult.reply "Sure!" ∧
    (Store.get (voiceProcess (fun n _ => if n = 0 then none else some "Sure!") storeEn
        (some "CA1") (some "Hello?") (some (mkRat 9 10)) 1).1 "CA1").map
        (fun s => s.conversationHistory.length) = some 3 := by
  decide

/-- C7 amended: for an active session with a recognized language, a
`/voice/process` turn with a non-empty call id, non-empty speech, confidence
at least 0.5, and a
generation that succeeds on the FIRST attempt increases the history length by
exactly 2: the user turn holding the input text followed by the assistant
turn holding the generated utterance, appended in that order with the earlier
turns untouched. -/
theorem C7_amended_success_first_attempt (provider : Nat → List Msg → Option String)
    (store : Store) (sess : CallSession) (prof : LangProfile)
    (callSid s u : String) (c : ℚ) (now : Nat)
    (hget : Store.get store callSid = some sess)
    (hlang : supportedLanguages sess.language = some prof)
    (hcs : callSid ≠ "")
    (hs : s ≠ "")
    (hc : ¬ c < mkRat 1 2)
    (hp : ∀ m, provider 0 m = some u) :
    voiceProcess provider store (some callSid) (some s) (some c) now =
      (Store.set store callSid (pushTurn (pushTurn sess "user" s now) "assistant" u now),
        ProcessResult.reply u) ∧
    (pushTurn (pushTurn sess "user" s now) "assistant" u now).conversationHistory =
      sess.conversationHistory ++
        [{ role := "user", content := s, timestamp := now },
          { role := "assistant", content := u, timestamp := now }] ∧
    (pushTurn (pushTurn sess "user" s now) "assistant" u now).conversationHistory.length =
      sess.conversationHistory.length + 2 := by
  have hcm : callSidMissing (some callSid) = false := by simp [callSidMissing, hcs]
  have hsm : speechMissing (some s) = false := by simp [speechMissing, hs]
  have hlc : lowConfidence (some c) = false := by simp [lowConfidence, hc]
  have e := generateAttempt_ok provider 0 store sess prof callSid s now u hget hlang (hp _)
  have egen : generateResponse provider store callSid s now =
      (Store.set store callSid (pushTurn (pushTurn sess "user" s now) "assistant" u now),
        u, []) :=
    generateResponseGo_ok provider callSid s now 0 3 store _ u e
  refine ⟨?_, by simp [pushTurn, List.append_assoc], by simp [pushTurn]⟩
  simp only [voiceProcess, hcm, hsm, hlc, Bool.or_self, Option.getD_some, egen]
  rfl

/-- Witness for C7: a concrete high-confidence turn answered on the first
attempt appends exactly the user and assistant turns. -/
theorem C7_witness :
    Store.get storeEn "CA1" = some sessionEn ∧
    supportedLanguages sessionEn.language =
      some { name := "English", voice := "alloy", whisperLang := "en" } ∧
    "CA1" ≠ "" ∧
    "Hello?" ≠ "" ∧
    ¬ mkRat 9 10 < mkRat 1 2 ∧
    (∀ m : List Msg,
      (fun (_ : Nat) (_ : List Msg) => some "Sure thing!") 0 m = some "Sure thing!") ∧
    (voiceProcess (fun _ _ => some "Sure thing!") storeEn (some "CA1") (some "Hello?")
        (some (mkRat 9 10)) 1 =
      (Store.set storeEn "CA1"
          (pushTurn (pushTurn sessionEn "user" "Hello?" 1) "assistant" "Sure thing!" 1),
        ProcessResult.reply "Sure thing!") ∧
    (pushTurn (pushTurn sessionEn "user" "Hello?" 1)
        "assistant" "Sure thing!" 1).conversationHistory =
      sessionEn.conversationHistory ++
        [{ role := "user", content := "Hello?", timestamp := 1 },
          { role := "assistant", content := "Sure thing!", timestamp := 1 }] ∧
    (pushTurn (pushTurn sessionEn "user" "Hello?" 1)
        "assistant" "Sure thing!" 1).conversationHistory.length =
      sessionEn.conversationHistory.length + 2) :=
  ⟨rfl, rfl, by decide, by decide, by decide, fun _ => rfl,
    C7_amended_success_first_attempt (fun _ _ => some "Sure thing!") storeEn sessionEn
      { name := "English", voice := "alloy", whisperLang := "en" } "CA1" "Hello?"
      "Sure thing!" (mkRat 9 10) 1 rfl rfl (by decide) (by decide) (by decide)
      (fun _ => rfl)⟩

/-! ## Claim C8 -/

/-- C8: when the history at generation time (after the user push of
src/server.js line 196) holds more than 10 turns, the message list passed to
the provider is exactly one system instruction followed by the 10 most
recent turns in their original insertion order — the window is the final
10-element segment of the history, and a provider answering on that exact
list determines the attempt outcome. -/
theorem C8_windowing (store : Store) (sess : CallSession) (prof : LangProfile)
    (callSid userMessage : String) (now : Nat)
    (hget : Store.get store callSid = some sess)
    (hlang : supportedLanguages sess.language = some prof)
    (hlen : 10 < (pushTurn sess "user" userMessage now).conversationHistory.length) :
    buildMessages (pushTurn sess "user" userMessage now) prof.name =
      { role := "system", content := systemContent prof.name } ::
        (sliceLast 10 (pushTurn sess "user" userMessage now).conversationHistory).map
          (fun t => { role := t.role, content := t.content }) ∧
    (sliceLast 10 (pushTurn sess "user" userMessage now).conversationHistory).length = 10 ∧
    (pushTurn sess "user" userMessage now).conversationHistory =
      (pushTurn sess "user" userMessage now).conversationHistory.take
          ((pushTurn sess "user" userMessage now).conversationHistory.length - 10) ++
        sliceLast 10 (pushTurn sess "user" userMessage now).conversationHistory ∧
    (∀ provider u,
      provider 0 (buildMessages (pushTurn sess "user" userMessage now) prof.name) = some u →
      generateAttempt provider 0 store callSid userMessage now =
        (Store.set store callSid
            (pushTurn (pushTurn sess "user" userMessage now) "assistant" u now),
          some u)) := by
  refine ⟨rfl, ?_, ?_, ?_⟩
  · simp only [sliceLast, List.length_drop]
    omega
  · exact (List.take_append_drop _ _).symm
  · intro provider u hp
    exact generateAttempt_ok provider 0 store sess prof callSid userMessage now u hget hlang hp

/-- Witness for C8: a session with 15 prior turns; after the user push the
history holds 16 turns and the provider context is the system instruction
followed by exactly the 10 most recent turns. -/
theorem C8_witness :
    Store.get storeFifteen "CA1" = some sessionFifteen ∧
    supportedLanguages sessionFifteen.language =
      some { name := "English", voice := "alloy", whisperLang := "en" } ∧
    10 < (pushTurn sessionFifteen "user" "new" 20).conversationHistory.length ∧
    (buildMessages (pushTurn sessionFifteen "user" "new" 20) "English" =
      { role := "system", content := systemContent "English" } ::
        (sliceLast 10 (pushTurn sessionFifteen "user" "new" 20).conversationHistory).map
          (fun t => { role := t.role, content := t.content }) ∧
    (sliceLast 10 (pushTurn sessionFifteen "user" "new" 20).conversationHistory).length = 10 ∧
    (pushTurn sessionFifteen "user" "new" 20).conversationHistory =
      (pushTurn sessionFifteen "user" "new" 20).conversationHistory.take
          ((pushTurn sessionFifteen "user" "new" 20).conversationHistory.length - 10) ++
        sliceLast 10 (pushTurn sessionFifteen "user" "new" 20).conversationHistory ∧
    (∀ provider u,
      provider 0 (buildMessages (pushTurn sessionFifteen "user" "new" 20) "English") = some u →
      generateAttempt provider 0 storeFifteen "CA1" "new" 20 =
        (Store.set storeFifteen "CA1"
            (pushTurn (pushTurn sessionFifteen "user" "new" 20) "assistant" u 20),
          some u))) :=
  ⟨rfl, rfl, by decide,
    C8_windowing storeFifteen sessionFifteen
      { name := "English", voice := "alloy", whisperLang := "en" } "CA1" "new" 20
      rfl rfl (by decide)⟩
